import Mathlib

/-!
# SHAKE128 / SHAKE256 sponge controller

A shallow embedding of `src/shake/xof/extern_shake.cpp` (`shakeCompute`, `shakeInit`,
`shakeUpdate`, `shakeFinal`, `shakeSqueeze`) together with a model of the Keccak layer
those functions call. The Keccak layer (`extern_keccak.h`, `keccakInit`, `keccakAbsorb`,
`keccakFinal`, `keccakSqueeze`, the block permutation and `KECCAK_SHAKE_PAD`) is not part
of the sources at hand, so it appears twice:

* as a parameter `K : KeccakOps` of every `shake*` function, for the statements that only
  depend on the wrapper code;
* as `keccakSpec f`, modelled from the specification (sections 3, 4.1 and 6), with the block
  permutation `f` kept abstract, and as `fips` with the FIPS 202 permutation Keccak-f[1600].

Conventions: a byte is a `Nat` below 256, a byte string is a `List Nat`; `uint_t` is an
unsigned 32 bit integer carried as a `Nat`; `int` results are carried as `Int`. A length
argument of type `int` is carried as the `Nat` number of bytes to process.
-/

namespace Shake

/-! ## Data model -/

/-- Modelled from the spec: the `phase` of a session (section 3), one of Absorbing and
Squeezing. The specification records it but the operations never test it. -/
inductive Phase where
  | Absorbing
  | Squeezing
deriving DecidableEq

/-- Modelled from the spec: the Keccak context `KeccakContext` declared in the absent
`extern_keccak.h`, with the session fields of section 3: the permutation state as a byte
string (200 bytes when well formed), the `rate` in bits, the `bufferPosition` in bytes and
the `phase`. -/
structure KeccakContext where
  state : List Nat
  rate : Nat
  bufferPosition : Nat
  phase : Phase
deriving DecidableEq

/-- The SHAKE algorithm context of `extern_shake.h`: a record around one Keccak context. -/
structure ShakeContext where
  keccakContext : KeccakContext
deriving DecidableEq

/-- The four Keccak entry points called by `extern_shake.cpp`, whose code is absent:
`keccakInit(context, capacity)` returns a status and the new context, `keccakAbsorb(context,
input, length)` the new context, `keccakFinal(context, pad)` the new context and
`keccakSqueeze(context, output, length)` the new context with the bytes it wrote to
`output[0 .. length)`. -/
structure KeccakOps where
  keccakInit : KeccakContext → Nat → Int × KeccakContext
  keccakAbsorb : KeccakContext → List Nat → KeccakContext
  keccakFinal : KeccakContext → Nat → KeccakContext
  keccakSqueeze : KeccakContext → Nat → KeccakContext × List Nat

/-- The padding byte handed to `keccakFinal` by `shakeFinal`. The defining header is absent;
the value is the one the source comment in `shakeFinal` gives: 0x1F for XOFs. -/
def KECCAK_SHAKE_PAD : Nat := 0x1F

/-- Conversion of a C `int` to the unsigned 32 bit parameter type `uint_t`. -/
def toUint (z : Int) : Nat := (z % 2 ^ 32).toNat

/-- Writing `bytes` through the pointer `output`: the first `bytes.length` bytes of the
buffer are replaced, the rest of the buffer is kept. -/
def store (output bytes : List Nat) : List Nat := bytes ++ output.drop bytes.length

/-! ## The wrapper code of `extern_shake.cpp` -/

/-- `shakeInit(context, strength)`: the status and the context afterwards. The product
`2 * strength` is computed in `uint_t`. -/
def shakeInit (K : KeccakOps) (context : ShakeContext) (strength : Nat) : Int × ShakeContext :=
  if strength = 128 ∨ strength = 256 then
    let r := K.keccakInit context.keccakContext (2 * strength % 2 ^ 32)
    (r.1, { keccakContext := r.2 })
  else
    (-1, context)

/-- `shakeUpdate(context, input, length)` where `input` holds the `length` bytes read. -/
def shakeUpdate (K : KeccakOps) (context : ShakeContext) (input : List Nat) : ShakeContext :=
  { keccakContext := K.keccakAbsorb context.keccakContext input }

/-- `shakeFinal(context)`. -/
def shakeFinal (K : KeccakOps) (context : ShakeContext) : ShakeContext :=
  { keccakContext := K.keccakFinal context.keccakContext KECCAK_SHAKE_PAD }

/-- `shakeSqueeze(context, output, length)`: the context afterwards and the bytes written to
`output[0 .. length)`. -/
def shakeSqueeze (K : KeccakOps) (context : ShakeContext) (length : Nat) :
    ShakeContext × List Nat :=
  let r := K.keccakSqueeze context.keccakContext length
  ({ keccakContext := r.1 }, r.2)

/-- `shakeCompute(strength, input, inputLen, output, outputLen)`. The argument `alloc` is the
result of `malloc(sizeof(ShakeContext))`: `none` for a null pointer, `some context` for a
block of memory with arbitrary contents. The result is the returned status and the contents
of the buffer `output` afterwards. -/
def shakeCompute (K : KeccakOps) (alloc : Option ShakeContext) (strength : Nat)
    (input output : List Nat) (outputLen : Nat) : Int × List Nat :=
  match alloc with
  | some context =>
    let r := shakeInit K context strength
    if r.1 = 0 then
      let c1 := shakeUpdate K r.2 input
      let c2 := shakeFinal K c1
      let s := shakeSqueeze K c2 outputLen
      (r.1, store output s.2)
    else
      (r.1, output)
  | none => (-1, output)

/-- The one-shot operation as the specification words it (section 4.1, compute): create,
then absorb(input), then finalize, then squeeze(outputLength), on the fresh context `fresh`.
The result is the status of create and, when create succeeded, the squeezed bytes. -/
def computeSpec (K : KeccakOps) (fresh : ShakeContext) (strength : Nat) (input : List Nat)
    (outputLength : Nat) : Int × Option (List Nat) :=
  let created := shakeInit K fresh strength
  if created.1 = 0 then
    let absorbed := shakeUpdate K created.2 input
    let finalized := shakeFinal K absorbed
    (created.1, some (shakeSqueeze K finalized outputLength).2)
  else
    (created.1, none)

/-! ## The Keccak layer, modelled from the specification -/

/-- Modelled from the spec: the byte-level XOR-into-state primitive of section 6, at offset
`i` of the state. -/
def xorAt (st : List Nat) (i v : Nat) : List Nat := st.set i (st.getD i 0 ^^^ v)

/-- Modelled from the spec: `keccakInit` (absent), through create of section 4.1 and the rate
of section 3: rate `1600 - capacity` bits, state zeroed, buffer position 0, phase Absorbing,
status success. -/
def keccakInit (_context : KeccakContext) (capacity : Nat) : Int × KeccakContext :=
  (0, { state := List.replicate 200 0, rate := 1600 - capacity, bufferPosition := 0,
        phase := Phase.Absorbing })

/-- Modelled from the spec: one step of absorb (section 4.1): XOR the byte into the state at
the buffer position, increment the position, and when it reaches `rate/8` invoke the
permutation `f` and reset the position to 0. -/
def absorbByte (f : List Nat → List Nat) (c : KeccakContext) (b : Nat) : KeccakContext :=
  let st := xorAt c.state c.bufferPosition b
  if c.bufferPosition + 1 = c.rate / 8 then
    { c with state := f st, bufferPosition := 0 }
  else
    { c with state := st, bufferPosition := c.bufferPosition + 1 }

/-- Modelled from the spec: `keccakAbsorb` (absent), absorb of section 4.1: the bytes are
streamed one at a time. -/
def keccakAbsorb (f : List Nat → List Nat) (c : KeccakContext) (input : List Nat) :
    KeccakContext :=
  input.foldl (absorbByte f) c

/-- Modelled from the spec: the state after the padding of finalize (section 4.1): `pad` at
the buffer position and 0x80 at offset `rate/8 - 1`, both XORed in. -/
def padState (c : KeccakContext) (pad : Nat) : List Nat :=
  xorAt (xorAt c.state c.bufferPosition pad) (c.rate / 8 - 1) 0x80

/-- Modelled from the spec: `keccakFinal` (absent), finalize of section 4.1: pad, invoke the
permutation once, move to the Squeezing phase and reset the buffer position. -/
def keccakFinal (f : List Nat → List Nat) (c : KeccakContext) (pad : Nat) : KeccakContext :=
  { c with state := f (padState c pad), bufferPosition := 0, phase := Phase.Squeezing }

/-- Modelled from the spec: the context after one byte was copied out in squeeze
(section 4.1): increment the position, and when it reaches `rate/8` invoke the permutation
and reset the position to 0. -/
def squeezeAdvance (f : List Nat → List Nat) (c : KeccakContext) : KeccakContext :=
  if c.bufferPosition + 1 = c.rate / 8 then
    { c with state := f c.state, bufferPosition := 0 }
  else
    { c with bufferPosition := c.bufferPosition + 1 }

/-- Modelled from the spec: `keccakSqueeze` (absent), squeeze of section 4.1: `length` bytes
are copied out of the state one at a time, starting at the buffer position. -/
def keccakSqueeze (f : List Nat → List Nat) (c : KeccakContext) :
    Nat → KeccakContext × List Nat
  | 0 => (c, [])
  | n + 1 =>
    let r := keccakSqueeze f (squeezeAdvance f c) n
    (r.1, c.state.getD c.bufferPosition 0 :: r.2)

/-- Modelled from the spec: the Keccak layer of sections 4.1 and 6 over a block
permutation `f`. -/
def keccakSpec (f : List Nat → List Nat) : KeccakOps :=
  { keccakInit := keccakInit
    keccakAbsorb := keccakAbsorb f
    keccakFinal := keccakFinal f
    keccakSqueeze := keccakSqueeze f }

/-! ## The permutation Keccak-f[1600], modelled from FIPS 202 -/

/-- Modelled from the spec: rotation of a 64 bit lane to the left (the bit rotations of the
permutation, section 1). -/
def rotl64 (v n : Nat) : Nat := ((v <<< n) ||| (v >>> (64 - n))) % 2 ^ 64

/-- Modelled from the spec: the walk over the lanes of the step rho of Keccak-f[1600]
(FIPS 202, algorithm 2): from `(1, 0)`, each step sends `(x, y)` to `(y, (2 x + 3 y) mod 5)`. -/
def rhoWalk : Nat → Nat × Nat
  | 0 => (1, 0)
  | t + 1 => ((rhoWalk t).2, (2 * (rhoWalk t).1 + 3 * (rhoWalk t).2) % 5)

/-- Modelled from the spec: the rotation offsets of the step rho (FIPS 202, algorithm 2), for
the lane `x + 5 * y`: lane (0, 0) is not rotated, and the lane reached at step `t` of the walk
is rotated by `(t + 1) (t + 2) / 2` modulo 64. -/
def keccakRho : List Nat :=
  (List.range 24).foldl
    (fun offsets t =>
      offsets.set ((rhoWalk t).1 + 5 * (rhoWalk t).2) ((t + 1) * (t + 2) / 2 % 64))
    (List.replicate 25 0)

/-- Modelled from the spec: one step of the 8 bit shift register behind the round constants
(FIPS 202, algorithm 5), with feedback polynomial `x^8 + x^6 + x^5 + x^4 + 1`. -/
def rcStep (r : Nat) : Nat :=
  if r / 128 % 2 = 1 then (2 * r % 256) ^^^ 0x71 else 2 * r % 256

/-- Modelled from the spec: the bit `rc(t)` of FIPS 202, algorithm 5. -/
def rcBit (t : Nat) : Nat := (rcStep^[t] 1) % 2

/-- Modelled from the spec: the round constant of round `i` (FIPS 202, algorithm 6): bit
`2^j - 1` is `rc(j + 7 i)` for `j` from 0 to 6. -/
def roundConstant (i : Nat) : Nat :=
  (List.range 7).foldl (fun acc j => acc + rcBit (j + 7 * i) * 2 ^ (2 ^ j - 1)) 0

/-- Modelled from the spec: the 24 round constants of Keccak-f[1600]. -/
def keccakRc : List Nat := (List.range 24).map roundConstant

/-- Modelled from the spec: the step theta on the 25 lanes, lane `x + 5 * y` at index
`x + 5 * y`. -/
def theta (a : List Nat) : List Nat :=
  let c := (List.range 5).map fun x =>
    a.getD x 0 ^^^ a.getD (x + 5) 0 ^^^ a.getD (x + 10) 0 ^^^ a.getD (x + 15) 0 ^^^
      a.getD (x + 20) 0
  let d := (List.range 5).map fun x =>
    c.getD ((x + 4) % 5) 0 ^^^ rotl64 (c.getD ((x + 1) % 5) 0) 1
  (List.range 25).map fun i => a.getD i 0 ^^^ d.getD (i % 5) 0

/-- Modelled from the spec: the steps rho and pi: the lane at `(X, Y)` of the result is the
rotated lane at `((X + 3 * Y) % 5, X)` of the argument. -/
def rhoPi (a : List Nat) : List Nat :=
  (List.range 25).map fun j =>
    let src := (j % 5 + 3 * (j / 5)) % 5 + 5 * (j % 5)
    rotl64 (a.getD src 0) (keccakRho.getD src 0)

/-- Modelled from the spec: the step chi. -/
def chi (b : List Nat) : List Nat :=
  (List.range 25).map fun i =>
    let y := i / 5
    let x := i % 5
    b.getD i 0 ^^^
      ((b.getD ((x + 1) % 5 + 5 * y) 0 ^^^ (2 ^ 64 - 1)) &&& b.getD ((x + 2) % 5 + 5 * y) 0)

/-- Modelled from the spec: the step iota: the round constant is XORed into lane (0, 0). -/
def iota (rc : Nat) (a : List Nat) : List Nat :=
  match a with
  | [] => []
  | h :: t => (h ^^^ rc) :: t

/-- Modelled from the spec: one round of Keccak-f[1600]. -/
def keccakRound (a : List Nat) (rc : Nat) : List Nat := iota rc (chi (rhoPi (theta a)))

/-- Modelled from the spec: the 24 rounds on the 25 lanes. -/
def keccakF (a : List Nat) : List Nat := keccakRc.foldl keccakRound a

/-- Modelled from the spec: a lane from its 8 bytes, least significant first. -/
def laneOfBytes (bs : List Nat) : Nat := bs.foldr (fun b acc => b + 256 * acc) 0

/-- Modelled from the spec: the 25 lanes of a 200 byte state. -/
def lanesOfBytes (st : List Nat) : List Nat :=
  (List.range 25).map fun i => laneOfBytes ((st.drop (8 * i)).take 8)

/-- Modelled from the spec: the 200 bytes of 25 lanes. -/
def bytesOfLanes (a : List Nat) : List Nat :=
  (List.range 200).map fun k => (a.getD (k / 8) 0 >>> (8 * (k % 8))) % 256

/-- Modelled from the spec: the Permutation Engine `permute` of section 6, Keccak-f[1600] in
place on the byte-addressed 1600 bit state (the block permutation of the absent Keccak
layer), as standardised by FIPS 202. -/
def keccakPermutBlock (st : List Nat) : List Nat := bytesOfLanes (keccakF (lanesOfBytes st))

/-- Modelled from the spec: the Keccak layer over the FIPS 202 permutation. -/
def fips : KeccakOps := keccakSpec keccakPermutBlock

/-! ## Test data -/

/-- A context holding arbitrary bytes, as an uninitialised `ShakeContext ctx` may. -/
def staleContext : ShakeContext :=
  { keccakContext := { state := [0xde, 0xad, 0xbe, 0xef], rate := 7, bufferPosition := 3,
                       phase := Phase.Squeezing } }

/-- The first 32 bytes of SHAKE128 of the empty message (FIPS 202 test vector). -/
def shake128Empty32 : List Nat :=
  [0x7f, 0x9c, 0x2b, 0xa4, 0xe8, 0x8f, 0x82, 0x7d, 0x61, 0x60, 0x45, 0x50, 0x76, 0x05, 0x85,
   0x3e, 0xd7, 0x3b, 0x80, 0x93, 0xf6, 0xef, 0xbc, 0x88, 0xeb, 0x1a, 0x6e, 0xac, 0xfa, 0x66,
   0xef, 0x26]

/-- The first 64 bytes of SHAKE256 of the empty message (FIPS 202 test vector). -/
def shake256Empty64 : List Nat :=
  [0x46, 0xb9, 0xdd, 0x2b, 0x0b, 0xa8, 0x8d, 0x13, 0x23, 0x3b, 0x3f, 0xeb, 0x74, 0x3e, 0xeb,
   0x24, 0x3f, 0xcd, 0x52, 0xea, 0x62, 0xb8, 0x1b, 0x82, 0xb5, 0x0c, 0x27, 0x64, 0x6e, 0xd5,
   0x76, 0x2f, 0xd7, 0x5d, 0xc4, 0xdd, 0xd8, 0xc0, 0xf2, 0x00, 0xcb, 0x05, 0x01, 0x9d, 0x67,
   0xb5, 0x92, 0xf6, 0xfc, 0x82, 0x1c, 0x49, 0x47, 0x9a, 0xb4, 0x86, 0x40, 0x29, 0x2e, 0xac,
   0xb3, 0xb7, 0xc4, 0xbe]

/-! ## The wrapper code, for every Keccak layer -/

set_option maxRecDepth 100000

/-- C1: for every strength other than 128 and 256, among them 0, 512 and every negative
`int` converted to `uint_t`, `shakeInit` returns -1 and leaves the context as it was,
whatever the Keccak layer `K` is: `keccakInit` is not called. -/
theorem shakeInit_unsupported (K : KeccakOps) (context : ShakeContext) (strength : Nat)
    (h128 : strength ≠ 128) (h256 : strength ≠ 256) :
    shakeInit K context strength = (-1, context) ∧
    shakeInit K context 0 = (-1, context) ∧
    shakeInit K context 512 = (-1, context) ∧
    ∀ z : Int, -2 ^ 31 ≤ z → z < 0 → shakeInit K context (toUint z) = (-1, context) := by
  refine ⟨?_, ?_, ?_, ?_⟩
  · simp [shakeInit, h128, h256]
  · simp [shakeInit]
  · simp [shakeInit]
  · intro z hlo hneg
    have h1 : toUint z ≠ 128 := by unfold toUint; omega
    have h2 : toUint z ≠ 256 := by unfold toUint; omega
    simp [shakeInit, h1, h2]

/-- Witness of C1 at strength 127 on a stale context. -/
theorem shakeInit_unsupported_witness :
    127 ≠ 128 ∧ 127 ≠ 256 ∧ shakeInit fips staleContext 127 = (-1, staleContext) :=
  ⟨by decide, by decide, (shakeInit_unsupported fips staleContext 127 (by decide) (by decide)).1⟩

/-- C2, as stated, fails: with strength 128, when the allocation of the context fails,
`shakeCompute` returns -1 although `shakeInit` with strength 128 has status 0. -/
theorem shakeCompute_status_counterexample :
    ¬ ((shakeCompute fips none 128 [0x61] [0, 0, 0, 0] 4).1 = (shakeInit fips staleContext 128).1) := by
  decide

/-- C2, amended: when the allocation succeeds, for every strength, input and output length,
`shakeCompute` returns the status of `shakeInit` on the allocated context and, when that
status is 0, writes to `output` exactly the bytes of the sequence `shakeInit`, `shakeUpdate`,
`shakeFinal`, `shakeSqueeze` run on that context (and nothing otherwise). -/
theorem shakeCompute_refines_computeSpec (K : KeccakOps) (fresh : ShakeContext) (strength : Nat)
    (input output : List Nat) (outputLen : Nat) :
    (shakeCompute K (some fresh) strength input output outputLen).1
        = (shakeInit K fresh strength).1 ∧
    (shakeCompute K (some fresh) strength input output outputLen).1
        = (computeSpec K fresh strength input outputLen).1 ∧
    (shakeCompute K (some fresh) strength input output outputLen).2
        = (match (computeSpec K fresh strength input outputLen).2 with
           | some bytes => store output bytes
           | none => output) ∧
    ((shakeInit K fresh strength).1 = 0 →
      (computeSpec K fresh strength input outputLen).2
        = some (shakeSqueeze K (shakeFinal K (shakeUpdate K (shakeInit K fresh strength).2
            input)) outputLen).2) := by
  unfold shakeCompute computeSpec
  by_cases h : (shakeInit K fresh strength).1 = 0 <;> simp [h]

/-- C9: an allocation failure and an unsupported strength both make `shakeCompute` return
-1, whatever the other arguments are, so the returned codes are equal. -/
theorem shakeCompute_failures_same_code (K : KeccakOps) (context : ShakeContext)
    (strength strength0 : Nat) (input input0 output output0 : List Nat)
    (outputLen outputLen0 : Nat) (h128 : strength ≠ 128) (h256 : strength ≠ 256) :
    (shakeCompute K none strength0 input0 output0 outputLen0).1 = -1 ∧
    (shakeCompute K (some context) strength input output outputLen).1 = -1 ∧
    (shakeCompute K none strength0 input0 output0 outputLen0).1
      = (shakeCompute K (some context) strength input output outputLen).1 := by
  have h : ¬ (strength = 128 ∨ strength = 256) := by omega
  simp [shakeCompute, shakeInit, h]

/-- Witness of C9: allocation failure with strength 128 against strength 512 with a
successful allocation. -/
theorem shakeCompute_failures_same_code_witness :
    512 ≠ 128 ∧ 512 ≠ 256 ∧
    (shakeCompute fips none 128 [0x61] [7, 7] 2).1
      = (shakeCompute fips (some staleContext) 512 [0x62] [9] 1).1 :=
  ⟨by decide, by decide,
   (shakeCompute_failures_same_code fips staleContext 512 128 [0x62] [0x61] [9] [7, 7] 1 2
      (by decide) (by decide)).2.2⟩

/-- C10: whenever `shakeCompute` returns a non-zero status, the buffer `output` is unchanged
and the result does not depend on the absorb, finalize and squeeze primitives (none of them
ran); and `shakeInit` with an unsupported strength leaves the context unchanged. -/
theorem shakeCompute_failure_frame (K : KeccakOps) (alloc : Option ShakeContext)
    (strength : Nat) (input output : List Nat) (outputLen : Nat)
    (hfail : (shakeCompute K alloc strength input output outputLen).1 ≠ 0) :
    (shakeCompute K alloc strength input output outputLen).2 = output ∧
    (∀ K0 : KeccakOps, K0.keccakInit = K.keccakInit →
      shakeCompute K0 alloc strength input output outputLen
        = shakeCompute K alloc strength input output outputLen) ∧
    (∀ (context : ShakeContext) (s : Nat), s ≠ 128 → s ≠ 256 →
      (shakeInit K context s).2 = context) := by
  refine ⟨?_, ?_, ?_⟩
  · cases alloc with
    | none => rfl
    | some context =>
      unfold shakeCompute at hfail ⊢
      by_cases h : (shakeInit K context strength).1 = 0
      · simp [h] at hfail
      · simp [h]
  · intro K0 hK
    cases alloc with
    | none => rfl
    | some context =>
      have hinit : shakeInit K0 context strength = shakeInit K context strength := by
        simp [shakeInit, hK]
      unfold shakeCompute at hfail ⊢
      by_cases h : (shakeInit K context strength).1 = 0
      · simp [h] at hfail
      · simp [h, hinit]
  · intro context s h1 h2
    simp [shakeInit, h1, h2]

/-- Witness of C10: strength 512 with a successful allocation. -/
theorem shakeCompute_failure_frame_witness :
    (shakeCompute fips (some staleContext) 512 [0x61] [1, 2, 3] 3).1 ≠ 0 ∧
    (shakeCompute fips (some staleContext) 512 [0x61] [1, 2, 3] 3).2 = [1, 2, 3] :=
  ⟨by decide,
   (shakeCompute_failure_frame fips (some staleContext) 512 [0x61] [1, 2, 3] 3 (by decide)).1⟩

/-! ## The Keccak layer of the specification -/

theorem xorAt_length (st : List Nat) (i v : Nat) : (xorAt st i v).length = st.length := by
  simp [xorAt]

theorem getD_xorAt_self (st : List Nat) (i v : Nat) (h : i < st.length) :
    (xorAt st i v).getD i 0 = st.getD i 0 ^^^ v := by
  simp [xorAt, List.getD_eq_getElem?_getD, List.getElem?_set, h]

theorem getD_xorAt_ne (st : List Nat) (i j v : Nat) (h : i ≠ j) :
    (xorAt st i v).getD j 0 = st.getD j 0 := by
  simp [xorAt, List.getD_eq_getElem?_getD, List.getElem?_set, h]

theorem keccakSqueeze_length (f : List Nat → List Nat) (n : Nat) :
    ∀ c : KeccakContext, (keccakSqueeze f c n).2.length = n := by
  induction n with
  | zero => intro c; rfl
  | succ n ih => intro c; simp [keccakSqueeze, ih]

theorem keccakSqueeze_add (f : List Nat → List Nat) (n1 n2 : Nat) :
    ∀ c : KeccakContext,
      keccakSqueeze f c (n1 + n2)
        = ((keccakSqueeze f (keccakSqueeze f c n1).1 n2).1,
           (keccakSqueeze f c n1).2 ++ (keccakSqueeze f (keccakSqueeze f c n1).1 n2).2) := by
  induction n1 with
  | zero => intro c; simp [keccakSqueeze]
  | succ n ih =>
    intro c
    rw [Nat.succ_add]
    simp [keccakSqueeze, ih]

/-- C3, as stated, fails: with strength 128 `shakeCompute` does not return 0 when the
allocation of the context fails. -/
theorem shakeCompute_can_fail_counterexample :
    (shakeCompute fips none 128 [] [0, 0] 2).1 ≠ 0 := by
  decide

/-- C3, amended: `shakeCompute` returns -1 when the strength is neither 128 nor 256; for
strength 128 or 256 it returns 0 for every input and output length whenever the allocation
of the context succeeds. -/
theorem shakeCompute_status (f : List Nat → List Nat) (alloc : Option ShakeContext)
    (context : ShakeContext) (strength : Nat) (input output : List Nat) (outputLen : Nat) :
    (strength ≠ 128 ∧ strength ≠ 256 →
      (shakeCompute (keccakSpec f) alloc strength input output outputLen).1 = -1) ∧
    (strength = 128 ∨ strength = 256 →
      (shakeCompute (keccakSpec f) (some context) strength input output outputLen).1 = 0) := by
  constructor
  · intro h
    have h0 : ¬ (strength = 128 ∨ strength = 256) := by omega
    cases alloc with
    | none => rfl
    | some c => simp [shakeCompute, shakeInit, h0]
  · intro h
    simp [shakeCompute, shakeInit, h, keccakSpec, keccakInit]

/-- Witness of C3: strength 512 fails and strength 256 succeeds, both with a successful
allocation. -/
theorem shakeCompute_status_witness :
    (512 ≠ 128 ∧ 512 ≠ 256) ∧ (256 = 128 ∨ 256 = 256) ∧
    (shakeCompute (keccakSpec id) (some staleContext) 512 [1] [0] 1).1 = -1 ∧
    (shakeCompute (keccakSpec id) (some staleContext) 256 [1] [0] 1).1 = 0 :=
  ⟨by decide, by decide,
   (shakeCompute_status id (some staleContext) staleContext 512 [1] [0] 1).1 (by decide),
   (shakeCompute_status id none staleContext 256 [1] [0] 1).2 (by decide)⟩

/-- C4: squeeze composability. For every context and all lengths `n1`, `n2`, squeezing `n1`
bytes and then `n2` bytes writes, concatenated, the bytes of one squeeze of `n1 + n2` bytes
and leaves the same context; the squeezes write `n1`, `n2` and `n1 + n2` bytes. -/
theorem shakeSqueeze_composable (f : List Nat → List Nat) (context : ShakeContext)
    (n1 n2 : Nat) :
    (shakeSqueeze (keccakSpec f) context n1).2
        ++ (shakeSqueeze (keccakSpec f) (shakeSqueeze (keccakSpec f) context n1).1 n2).2
      = (shakeSqueeze (keccakSpec f) context (n1 + n2)).2 ∧
    (shakeSqueeze (keccakSpec f) (shakeSqueeze (keccakSpec f) context n1).1 n2).1
      = (shakeSqueeze (keccakSpec f) context (n1 + n2)).1 ∧
    (shakeSqueeze (keccakSpec f) context n1).2.length = n1 ∧
    (shakeSqueeze (keccakSpec f) (shakeSqueeze (keccakSpec f) context n1).1 n2).2.length = n2 ∧
    (shakeSqueeze (keccakSpec f) context (n1 + n2)).2.length = n1 + n2 := by
  simp [shakeSqueeze, keccakSpec, keccakSqueeze_add, keccakSqueeze_length]

/-- C5: chunking invariance. For every context (those made by `shakeInit` with strength 128
or 256 among them) and every split of the input, absorbing the two parts in turn leaves the
context of absorbing the whole input, so `shakeFinal` and `shakeSqueeze` then agree for every
requested length. -/
theorem shakeUpdate_chunking (f : List Nat → List Nat) (context : ShakeContext)
    (part1 part2 : List Nat) (strength : Nat) :
    shakeUpdate (keccakSpec f) (shakeUpdate (keccakSpec f) context part1) part2
      = shakeUpdate (keccakSpec f) context (part1 ++ part2) ∧
    (∀ n : Nat,
      shakeSqueeze (keccakSpec f) (shakeFinal (keccakSpec f)
          (shakeUpdate (keccakSpec f) (shakeUpdate (keccakSpec f) context part1) part2)) n
        = shakeSqueeze (keccakSpec f) (shakeFinal (keccakSpec f)
            (shakeUpdate (keccakSpec f) context (part1 ++ part2))) n) ∧
    (∀ n : Nat,
      shakeSqueeze (keccakSpec f) (shakeFinal (keccakSpec f)
          (shakeUpdate (keccakSpec f) (shakeUpdate (keccakSpec f)
            (shakeInit (keccakSpec f) context strength).2 part1) part2)) n
        = shakeSqueeze (keccakSpec f) (shakeFinal (keccakSpec f)
            (shakeUpdate (keccakSpec f) (shakeInit (keccakSpec f) context strength).2
              (part1 ++ part2))) n) := by
  have key : ∀ c : ShakeContext,
      shakeUpdate (keccakSpec f) (shakeUpdate (keccakSpec f) c part1) part2
        = shakeUpdate (keccakSpec f) c (part1 ++ part2) := by
    intro c
    simp [shakeUpdate, keccakSpec, keccakAbsorb, List.foldl_append]
  refine ⟨key context, ?_, ?_⟩
  · intro n; rw [key]
  · intro n; rw [key]

/-- C7: for strength 128 or 256, `shakeInit` initialises the Keccak context with capacity
`2 * strength` and returns the status of that initialisation; with the Keccak layer of the
specification the status is 0, the rate is `1600 - 2 * strength` bits (1344 bits, 168 bytes
for 128; 1088 bits, 136 bytes for 256), the state is 200 zero bytes, the buffer position is 0
and the phase is Absorbing. -/
theorem shakeInit_supported (K : KeccakOps) (f : List Nat → List Nat) (context : ShakeContext)
    (strength : Nat) (h : strength = 128 ∨ strength = 256) :
    shakeInit K context strength
      = ((K.keccakInit context.keccakContext (2 * strength)).1,
         { keccakContext := (K.keccakInit context.keccakContext (2 * strength)).2 }) ∧
    (shakeInit (keccakSpec f) context strength).1 = 0 ∧
    (shakeInit (keccakSpec f) context strength).2.keccakContext.rate = 1600 - 2 * strength ∧
    (shakeInit (keccakSpec f) context strength).2.keccakContext.rate
      = (if strength = 128 then 1344 else 1088) ∧
    (shakeInit (keccakSpec f) context strength).2.keccakContext.rate / 8
      = (if strength = 128 then 168 else 136) ∧
    (shakeInit (keccakSpec f) context strength).2.keccakContext.state = List.replicate 200 0 ∧
    (shakeInit (keccakSpec f) context strength).2.keccakContext.bufferPosition = 0 ∧
    (shakeInit (keccakSpec f) context strength).2.keccakContext.phase = Phase.Absorbing := by
  rcases h with h | h <;> subst h
  · refine ⟨rfl, rfl, rfl, rfl, ?_, rfl, rfl, rfl⟩
    show (1344 : Nat) / 8 = _
    decide
  · refine ⟨rfl, rfl, rfl, rfl, ?_, rfl, rfl, rfl⟩
    show (1088 : Nat) / 8 = _
    decide

/-- Witness of C7 at strength 256 on a stale context. -/
theorem shakeInit_supported_witness :
    (256 = 128 ∨ 256 = 256) ∧
    (shakeInit fips staleContext 256).2.keccakContext.rate / 8 = 136 ∧
    (shakeInit fips staleContext 256).2.keccakContext.state = List.replicate 200 0 :=
  ⟨by decide,
   (shakeInit_supported fips keccakPermutBlock staleContext 256 (by decide)).2.2.2.2.1,
   (shakeInit_supported fips keccakPermutBlock staleContext 256 (by decide)).2.2.2.2.2.1⟩

/-- C8: for a context in the Absorbing phase whose buffer position `p` is below `rate/8`,
with the rate block inside the state, `shakeFinal` leaves the permutation applied once to the
padded state, buffer position 0 and phase Squeezing, rate unchanged. The padded state has
0x1F XORed into byte `p` and 0x80 into byte `rate/8 - 1` (both into the one byte when
`p = rate/8 - 1`) and every other byte unchanged. -/
theorem shakeFinal_pads (f : List Nat → List Nat) (context : ShakeContext)
    (hphase : context.keccakContext.phase = Phase.Absorbing)
    (hpos : context.keccakContext.bufferPosition < context.keccakContext.rate / 8)
    (hlen : context.keccakContext.rate / 8 ≤ context.keccakContext.state.length) :
    (shakeFinal (keccakSpec f) context).keccakContext
      = { state := f (padState context.keccakContext 0x1F),
          rate := context.keccakContext.rate,
          bufferPosition := 0,
          phase := Phase.Squeezing } ∧
    (padState context.keccakContext 0x1F).length = context.keccakContext.state.length ∧
    (∀ i, i ≠ context.keccakContext.bufferPosition → i ≠ context.keccakContext.rate / 8 - 1 →
      (padState context.keccakContext 0x1F).getD i 0 = context.keccakContext.state.getD i 0) ∧
    (context.keccakContext.bufferPosition ≠ context.keccakContext.rate / 8 - 1 →
      (padState context.keccakContext 0x1F).getD context.keccakContext.bufferPosition 0
        = context.keccakContext.state.getD context.keccakContext.bufferPosition 0 ^^^ 0x1F ∧
      (padState context.keccakContext 0x1F).getD (context.keccakContext.rate / 8 - 1) 0
        = context.keccakContext.state.getD (context.keccakContext.rate / 8 - 1) 0 ^^^ 0x80) ∧
    (context.keccakContext.bufferPosition = context.keccakContext.rate / 8 - 1 →
      (padState context.keccakContext 0x1F).getD context.keccakContext.bufferPosition 0
        = context.keccakContext.state.getD context.keccakContext.bufferPosition 0
            ^^^ 0x1F ^^^ 0x80) := by
  obtain ⟨⟨st, rate, p, ph⟩⟩ := context
  simp only at hphase hpos hlen ⊢
  have hp : p < st.length := by omega
  have hl : rate / 8 - 1 < st.length := by omega
  refine ⟨?_, ?_, ?_, ?_, ?_⟩
  · simp [shakeFinal, keccakSpec, keccakFinal, KECCAK_SHAKE_PAD]
  · simp [padState, xorAt_length]
  · intro i hi1 hi2
    unfold padState
    simp only []
    rw [getD_xorAt_ne _ _ _ _ (Ne.symm hi2), getD_xorAt_ne _ _ _ _ (Ne.symm hi1)]
  · intro hne
    unfold padState
    simp only []
    constructor
    · rw [getD_xorAt_ne _ _ _ _ (Ne.symm hne), getD_xorAt_self _ _ _ hp]
    · rw [getD_xorAt_self _ _ _ (by rw [xorAt_length]; exact hl), getD_xorAt_ne _ _ _ _ hne]
  · intro heq
    unfold padState
    simp only []
    rw [← heq, getD_xorAt_self _ _ _ (by rw [xorAt_length]; exact hp),
      getD_xorAt_self _ _ _ hp]

/-- Witness of C8: the context made by `shakeInit` with strength 128 after absorbing one
byte. -/
theorem shakeFinal_pads_witness :
    (shakeUpdate (keccakSpec id) (shakeInit (keccakSpec id) staleContext 128).2
        [0x61]).keccakContext.bufferPosition = 1 ∧
    (shakeFinal (keccakSpec id) (shakeUpdate (keccakSpec id)
        (shakeInit (keccakSpec id) staleContext 128).2 [0x61])).keccakContext.phase
      = Phase.Squeezing :=
  ⟨by decide,
   congrArg KeccakContext.phase
     (shakeFinal_pads id
       (shakeUpdate (keccakSpec id) (shakeInit (keccakSpec id) staleContext 128).2 [0x61])
       (by decide) (by decide) (by decide)).1⟩

/-- C6: known answers. On any context, `shakeInit(128)`, `shakeUpdate("", 0)`, `shakeFinal`,
`shakeSqueeze(32)` succeeds and writes the first 32 bytes of SHAKE128 of the empty message;
re-initialising the context so used with `shakeInit(256)` and running `shakeUpdate("", 0)`,
`shakeFinal`, `shakeSqueeze(64)` writes the first 64 bytes of SHAKE256 of the empty message,
as does the same run on any other context. -/
theorem shake_known_answers (context : ShakeContext) :
    (shakeInit fips context 128).1 = 0 ∧
    (shakeSqueeze fips (shakeFinal fips (shakeUpdate fips
        (shakeInit fips context 128).2 [])) 32).2 = shake128Empty32 ∧
    (shakeInit fips (shakeSqueeze fips (shakeFinal fips (shakeUpdate fips
        (shakeInit fips context 128).2 [])) 32).1 256).1 = 0 ∧
    (shakeSqueeze fips (shakeFinal fips (shakeUpdate fips
        (shakeInit fips (shakeSqueeze fips (shakeFinal fips (shakeUpdate fips
          (shakeInit fips context 128).2 [])) 32).1 256).2 [])) 64).2 = shake256Empty64 ∧
    (shakeInit fips context 256).1 = 0 ∧
    (shakeSqueeze fips (shakeFinal fips (shakeUpdate fips
        (shakeInit fips context 256).2 [])) 64).2 = shake256Empty64 := by
  have h128 : ∀ c : ShakeContext, shakeInit fips c 128 = shakeInit fips staleContext 128 :=
    fun _ => rfl
  have h256 : ∀ c : ShakeContext, shakeInit fips c 256 = shakeInit fips staleContext 256 :=
    fun _ => rfl
  have k128 : (shakeSqueeze fips (shakeFinal fips (shakeUpdate fips
      (shakeInit fips staleContext 128).2 [])) 32).2 = shake128Empty32 := by decide
  have k256 : (shakeSqueeze fips (shakeFinal fips (shakeUpdate fips
      (shakeInit fips staleContext 256).2 [])) 64).2 = shake256Empty64 := by decide
  refine ⟨rfl, ?_, ?_, ?_, rfl, ?_⟩
  · rw [h128 context]; exact k128
  · rw [h256]; rfl
  · rw [h256]; exact k256
  · rw [h256 context]; exact k256

end Shake
